import Mathlib

/-!
Shallow embedding of the classnet-ws-server repository (a Socket.IO
presence-aware event relay).  The repository contains near-duplicate
iterations of the same service:

* `src/unnamed/part_000` — the `/emit` variant: an `io.use` middleware that
  checks `userId` and `socketKey` against `process.env.SOCKET_KEY`, a
  `connectedUsers` Map (userId → socketId), a guarded `check-online` RPC,
  an authenticated `POST /emit` endpoint, and an unconditional
  `connectedUsers.delete(userId)` on disconnect.
* `src/index.js` (second half) — the `/events` variant: `authenticateSocket`
  checks only that `userId` is present (no credential check), an unguarded
  `check-online` RPC, and an unauthenticated `POST /events` endpoint that
  emits unconditionally and augments the payload with a `metadata` field.

JavaScript `Map` objects are modelled as association lists with unique keys,
query/body values as `Option String` / `Option JsonVal` (with `none` for
`undefined`), and JS truthiness is modelled explicitly.
-/

namespace ClassnetWs

/-- JSON-like values carried in request bodies and socket messages. -/
inductive JsonVal where
  | null : JsonVal
  | bool (b : Bool) : JsonVal
  | num (n : Int) : JsonVal
  | str (s : String) : JsonVal
  | obj (fields : List (String × JsonVal)) : JsonVal
  | arr (elems : List JsonVal) : JsonVal

/-- JavaScript truthiness of a `JsonVal` (`null`, `false`, `0` and `""` are
falsy; every object and array is truthy). -/
def JsonVal.truthy : JsonVal → Bool
  | .null => false
  | .bool b => b
  | .num n => n != 0
  | .str s => !s.isEmpty
  | .obj _ => true
  | .arr _ => true

/-- Truthiness of a string-valued query/body field, where `none` models an
absent (`undefined`) field: `!x` in JS is true for `undefined` and `""`. -/
def truthyStr : Option String → Bool
  | none => false
  | some s => !s.isEmpty

/-- Truthiness of an arbitrary JSON body field (`none` models `undefined`). -/
def truthyOpt : Option JsonVal → Bool
  | none => false
  | some v => v.truthy

/-- Property access `v["k"]` on a `JsonVal`: only objects have named
properties; on anything else the access yields `undefined` (`none`). -/
def getField : JsonVal → String → Option JsonVal
  | .obj fs, k => (fs.find? (fun p => p.1 = k)).map (fun p => p.2)
  | _, _ => none

/-- `typeof v === "object"` in JS: objects, arrays and `null`. -/
def isObjectTy : JsonVal → Bool
  | .obj _ => true
  | .arr _ => true
  | .null => true
  | _ => false

/-- The `connectedUsers` Map (userId → socketId), modelled as an association
list; real `Map` objects keep at most one entry per key. -/
abbrev Registry := List (String × String)

/-- `connectedUsers.set(k, v)`: overwrite the entry for `k` if present
(keeping its position, as JS `Map.set` does), else append. -/
def mapSet : Registry → String → String → Registry
  | [], k, v => [(k, v)]
  | (k', v') :: rest, k, v =>
    if k' = k then (k, v) :: rest else (k', v') :: mapSet rest k v

/-- `connectedUsers.delete(k)`: remove the entry for `k`.  On a map with
unique keys this removes at most one entry. -/
def mapDelete (m : Registry) (k : String) : Registry :=
  m.filter (fun p => p.1 ≠ k)

/-- `connectedUsers.has(k)`. -/
def mapHas (m : Registry) (k : String) : Bool :=
  m.any (fun p => p.1 = k)

/-- `connectedUsers.get(k)` (`none` models `undefined`). -/
def mapGet (m : Registry) (k : String) : Option String :=
  (m.find? (fun p => p.1 = k)).map (fun p => p.2)

/-- `connectedUsers.size`. -/
def mapSize (m : Registry) : Nat := m.length

/-- Number of registry entries held for key `k` (to state that a user never
maps to two connections at once). -/
def countKey (m : Registry) (k : String) : Nat :=
  (m.filter (fun p => p.1 = k)).length

/-- The handshake query string of an inbound socket connection
(`socket.handshake.query`); `none` models an absent parameter. -/
structure HandshakeQuery where
  userId : Option String
  socketKey : Option String
deriving DecidableEq, Repr

/-- Outcome of a connection middleware: either `next(new Error(msg))`
(the connection is refused before admission) or `next()` (admitted). -/
inductive AuthOutcome where
  | rejected (msg : String) : AuthOutcome
  | admitted : AuthOutcome
deriving DecidableEq, Repr

/-- Result of running a handshake handler: the registry afterwards, the
admit/reject outcome, and the per-user room the socket joined (if any). -/
structure AuthStep where
  registry : Registry
  outcome : AuthOutcome
  joinedRoom : Option String
deriving DecidableEq, Repr

/-- The `io.use` middleware of the `/emit` variant
(`src/unnamed/part_000` lines 45–74): reject when `!userId`
(`"Se requiere userId"`, the spec's `MissingIdentity`); reject when
`socketKey !== process.env.SOCKET_KEY` (`"Clave de socket inválida"`, the
spec's `InvalidCredential`); otherwise `connectedUsers.set(userId, socket.id)`
and `socket.join(userId)`.  `envKey` models `process.env.SOCKET_KEY`
(`none` when the variable is unset). -/
def part000Auth (envKey : Option String) (socketId : String)
    (q : HandshakeQuery) (reg : Registry) : AuthStep :=
  if !truthyStr q.userId then
    { registry := reg, outcome := .rejected "Se requiere userId", joinedRoom := none }
  else if q.socketKey ≠ envKey then
    { registry := reg, outcome := .rejected "Clave de socket inválida", joinedRoom := none }
  else
    let uid := q.userId.getD ""
    { registry := mapSet reg uid socketId, outcome := .admitted, joinedRoom := some uid }

/-- The `authenticateSocket` middleware of the `/events` variant
(`src/index.js` lines 81–105): reject only when `!userId`; no credential is
checked; otherwise `connectedUsers.set(userId, socket.id)` and
`socket.join(userId)`. -/
def authenticateSocket (socketId : String) (q : HandshakeQuery)
    (reg : Registry) : AuthStep :=
  if !truthyStr q.userId then
    { registry := reg, outcome := .rejected "Se requiere userId", joinedRoom := none }
  else
    let uid := q.userId.getD ""
    { registry := mapSet reg uid socketId, outcome := .admitted, joinedRoom := some uid }

/-- The `socket.on('disconnect')` handler of both registry-bearing variants
(`src/unnamed/part_000` line 102, `src/index.js` line 116):
`connectedUsers.delete(userId)`, unconditionally — it does not compare the
registry's current socketId with the disconnecting socket's id. -/
def disconnectHandler (userId : String) (reg : Registry) : Registry :=
  mapDelete reg userId

/-- Reply passed to the `check-online` callback in the `/emit` variant.
`isOnline = none` models a reply object with no `isOnline` property. -/
structure CheckOnlineReply where
  success : Bool
  isOnline : Option Bool
  error : Option String
deriving DecidableEq, Repr

/-- The guarded `check-online` handler of the `/emit` variant
(`src/unnamed/part_000` lines 109–144): the whole body is wrapped in
try/catch, so the handler never throws; malformed input
(`!data || typeof data !== 'object'`) and a falsy `targetUserId` produce a
`{success:false, error}` reply with no `isOnline` property; otherwise the
reply is `{success:true, isOnline: connectedUsers.has(targetUserId)}` (a
non-string `targetUserId` is never a key of the string-keyed map).  The
registry is returned unchanged: the handler only reads it. -/
def part000CheckOnline (reg : Registry) (data : Option JsonVal) :
    Registry × CheckOnlineReply :=
  match data with
  | none =>
    (reg, { success := false, isOnline := none,
            error := some "Datos de solicitud inválidos" })
  | some v =>
    if !(v.truthy && isObjectTy v) then
      (reg, { success := false, isOnline := none,
              error := some "Datos de solicitud inválidos" })
    else
      match getField v "targetUserId" with
      | none =>
        (reg, { success := false, isOnline := none,
                error := some "Se requiere targetUserId" })
      | some t =>
        if !t.truthy then
          (reg, { success := false, isOnline := none,
                  error := some "Se requiere targetUserId" })
        else
          let isOnline := match t with
            | .str s => mapHas reg s
            | _ => false
          (reg, { success := true, isOnline := some isOnline, error := none })

/-- Reply passed to the `check-online` callback in the `/events` variant:
just `{isOnline}`, no success flag and no error indicator. -/
structure IndexCheckReply where
  isOnline : Bool
deriving DecidableEq, Repr

/-- The unguarded `check-online` handler of the `/events` variant
(`src/index.js` lines 125–129): `const { targetUserId } = data` throws a
`TypeError` when `data` is `undefined` or `null` (modelled as `.error`);
otherwise it replies `{isOnline: connectedUsers.has(targetUserId)}`, where a
missing or non-string `targetUserId` is simply not a key of the map. -/
def indexCheckOnline (reg : Registry) (data : Option JsonVal) :
    Except String (Registry × IndexCheckReply) :=
  match data with
  | none => .error "TypeError: cannot destructure"
  | some .null => .error "TypeError: cannot destructure"
  | some v =>
    let isOnline := match getField v "targetUserId" with
      | some (.str s) => mapHas reg s
      | _ => false
    .ok (reg, { isOnline := isOnline })

/-- One `io.to(room).emit(event, payload)` call issued by a relay handler. -/
structure EmitAction where
  room : String
  event : String
  payload : JsonVal

/-- An HTTP request to `POST /emit` of the `/emit` variant: the
`x-internal-key` header and the JSON body fields (`none` models an absent
header/field). -/
structure EmitRequest where
  internalKey : Option String
  userId : Option String
  eventType : Option String
  payload : Option JsonVal

/-- The JSON shape of a relay HTTP response, restricted to the fields the
specification talks about.  `delivered`/`recipientCount` are `none` for
responses that carry no such field. -/
structure HttpReply where
  status : Nat
  success : Bool
  error : Option String
  delivered : Option Bool
  recipientCount : Option Nat
deriving DecidableEq, Repr

/-- The `POST /emit` handler of the `/emit` variant
(`src/unnamed/part_000` lines 155–248): 403 when
`x-internal-key !== process.env.SOCKET_KEY`; 400 when
`!userId || !eventType || !payload`; 404 when
`!connectedUsers.has(userId) || !connectedUsers.get(userId)`; otherwise it
emits `io.to(userId).emit(eventType, payload)` — the payload untouched —
and answers 200.  The registry is only read, never written.  The result is
(registry afterwards, HTTP response, emitted events). -/
def emitHandler (envKey : Option String) (reg : Registry)
    (req : EmitRequest) : Registry × HttpReply × List EmitAction :=
  if req.internalKey ≠ envKey then
    (reg, { status := 403, success := false, error := some "Acceso no autorizado",
            delivered := none, recipientCount := none }, [])
  else if !(truthyStr req.userId && truthyStr req.eventType && truthyOpt req.payload) then
    (reg, { status := 400, success := false,
            error := some "Datos incompletos. Se requieren: userId, eventType y payload",
            delivered := none, recipientCount := none }, [])
  else
    let uid := req.userId.getD ""
    let isUserConnected := mapHas reg uid
    let socketId := mapGet reg uid
    if !isUserConnected || !truthyStr socketId then
      (reg, { status := 404, success := false, error := some "Usuario no conectado",
              delivered := none, recipientCount := none }, [])
    else
      (reg, { status := 200, success := true, error := none,
              delivered := none, recipientCount := none },
       [{ room := uid, event := req.eventType.getD "", payload := req.payload.getD .null }])

/-- An HTTP request to `POST /events` of the `/events` variant.  The
`x-internal-key` header is part of every HTTP request on the wire, but this
handler never reads it. -/
structure EventsRequest where
  internalKey : Option String
  userId : Option String
  eventType : Option String
  payload : Option JsonVal

/-- Object spread `{...v}`: objects contribute their fields, arrays and
strings contribute index-keyed properties, every other value contributes
nothing. -/
def objSpread : JsonVal → List (String × JsonVal)
  | .obj fs => fs
  | .arr xs => ((List.range xs.length).zip xs).map (fun p => (toString p.1, p.2))
  | .str s => ((List.range s.toList.length).zip s.toList).map
      (fun p => (toString p.1, .str (String.mk [p.2])))
  | _ => []

/-- Spread of a possibly-absent value: `{...undefined}` and `{...null}` are
both `{}`. -/
def spreadOpt : Option JsonVal → List (String × JsonVal)
  | none => []
  | some v => objSpread v

/-- Adding property `k: v` after a spread in an object literal: if `k` was
already produced by the spread its slot keeps its position and takes the new
value, otherwise `k` is appended. -/
def setFieldJs (fs : List (String × JsonVal)) (k : String) (v : JsonVal) :
    List (String × JsonVal) :=
  if fs.any (fun p => p.1 = k) then
    fs.map (fun p => if p.1 = k then (k, v) else p)
  else fs ++ [(k, v)]

/-- The payload actually emitted by the `/events` handler
(`src/index.js` lines 153–160):
`{...payload, metadata: {...(payload?.metadata || {}), sentAt, received}}`. -/
def eventsOutPayload (payload : Option JsonVal) (sentAt : String)
    (received : Bool) : JsonVal :=
  let metaBase : List (String × JsonVal) :=
    match payload with
    | none => []
    | some p =>
      match getField p "metadata" with
      | none => []
      | some m => if m.truthy then objSpread m else []
  let metadata := JsonVal.obj
    (setFieldJs (setFieldJs metaBase "sentAt" (.str sentAt)) "received" (.bool received))
  JsonVal.obj (setFieldJs (spreadOpt payload) "metadata" metadata)

/-- The `POST /events` handler of the `/events` variant
(`src/index.js` lines 136–183): no credential check; 400 when
`!userId || !eventType` (a missing `payload` is not rejected); otherwise it
computes `isUserOnline = connectedUsers.has(userId)`, emits
`io.to(userId).emit(eventType, …)` unconditionally — whether or not the user
is online — and answers 200 with `delivered = isUserOnline`.  `sentAt`
models `new Date().toISOString()`.  The registry is only read. -/
def eventsHandler (reg : Registry) (sentAt : String)
    (req : EventsRequest) : Registry × HttpReply × List EmitAction :=
  if !(truthyStr req.userId && truthyStr req.eventType) then
    (reg, { status := 400, success := false,
            error := some "Se requieren userId y eventType",
            delivered := none, recipientCount := none }, [])
  else
    let uid := req.userId.getD ""
    let isUserOnline := mapHas reg uid
    (reg, { status := 200, success := true, error := none,
            delivered := some isUserOnline,
            recipientCount := some (if isUserOnline then 1 else 0) },
     [{ room := uid, event := req.eventType.getD "",
        payload := eventsOutPayload req.payload sentAt isUserOnline }])

/-- Socket.IO room membership: a list of (room, socketId) pairs.  A socket
joins a room at admission (`socket.join(userId)`) and leaves all its rooms
when the underlying transport disconnects. -/
abbrev Rooms := List (String × String)

/-- `socket.join(room)`. -/
def joinRoom (rooms : Rooms) (room sid : String) : Rooms :=
  rooms ++ [(room, sid)]

/-- The transport removes a disconnected socket from every room. -/
def leaveAllRooms (rooms : Rooms) (sid : String) : Rooms :=
  rooms.filter (fun p => p.2 ≠ sid)

/-- The sockets that receive an `io.to(room).emit(...)` call: every socket
currently joined to that room, regardless of the registry. -/
def deliverTo (rooms : Rooms) (a : EmitAction) : List String :=
  (rooms.filter (fun p => p.1 = a.room)).map (fun p => p.2)

/-! Helper lemmas about the map model. -/

theorem isEmpty_eq_false_of_ne {s : String} (h : s ≠ "") : s.isEmpty = false := by
  rw [Bool.eq_false_iff]
  intro he
  exact h ((String.isEmpty_iff s).mp he)

theorem truthyStr_pos {s : String} (h : s ≠ "") : truthyStr (some s) = true := by
  simp [truthyStr, isEmpty_eq_false_of_ne h]

theorem mapGet_mapSet_self (m : Registry) (k v : String) :
    mapGet (mapSet m k v) k = some v := by
  induction m with
  | nil => simp [mapGet, mapSet]
  | cons p rest ih =>
    obtain ⟨k', v'⟩ := p
    by_cases h : k' = k
    · simp [mapSet, h, mapGet]
    · simpa [mapSet, h, mapGet, List.find?_cons] using ih

theorem mapHas_eq_isSome_mapGet (m : Registry) (k : String) :
    mapHas m k = (mapGet m k).isSome := by
  induction m with
  | nil => rfl
  | cons p rest ih =>
    by_cases h : p.1 = k
    · simp [mapHas, mapGet, List.find?_cons, h]
    · simpa [mapHas, mapGet, List.find?_cons, h] using ih

theorem mapHas_of_mapGet {m : Registry} {k v : String}
    (h : mapGet m k = some v) : mapHas m k = true := by
  rw [mapHas_eq_isSome_mapGet, h]; rfl

theorem countKey_cons (k' v' : String) (rest : Registry) (k : String) :
    countKey ((k', v') :: rest) k =
      (if k' = k then 1 else 0) + countKey rest k := by
  by_cases h : k' = k
  · simp [countKey, List.filter_cons, h]
    omega
  · simp [countKey, List.filter_cons, h]

theorem countKey_mapSet {m : Registry} (k v : String)
    (h : countKey m k ≤ 1) : countKey (mapSet m k v) k = 1 := by
  induction m with
  | nil => simp [mapSet, countKey]
  | cons p rest ih =>
    obtain ⟨k', v'⟩ := p
    rw [countKey_cons] at h
    by_cases hkk : k' = k
    · rw [if_pos hkk] at h
      have hz : countKey rest k = 0 := by omega
      simp [mapSet, hkk, countKey_cons, hz]
    · rw [if_neg hkk] at h
      simp [mapSet, hkk, countKey_cons, ih (by omega)]

/-! Claim theorems. -/

/-- C1 (code bug): the repository's disconnect handler deletes by user
identifier alone. Concretely: user `"u1"` is admitted on socket `"s1"`, then
readmitted on socket `"s2"`, so the registry maps `"u1"` to `"s2"`; when the
superseded socket `"s1"` finally fires its disconnect, the handler deletes
the `"u1" → "s2"` entry even though the registry no longer points at
`"s1"`.  The claim (and spec §4.2/§4.5) requires the entry to survive. -/
theorem c1_disconnect_deletes_newer_mapping :
    (part000Auth (some "k") "s2" ⟨some "u1", some "k"⟩
        (part000Auth (some "k") "s1" ⟨some "u1", some "k"⟩ []).registry).registry
      = [("u1", "s2")] ∧
    mapGet [("u1", "s2")] "u1" = some "s2" ∧
    ("s2" : String) ≠ "s1" ∧
    disconnectHandler "u1" [("u1", "s2")] = [] := by
  refine ⟨by decide, by decide, by decide, by decide⟩

/-- C2 (amended): in the `/emit` variant (`part000Auth`), a missing or empty
user identifier is rejected with the `MissingIdentity` error
(`"Se requiere userId"`) and a credential different from the configured
secret is rejected with the `InvalidCredential` error
(`"Clave de socket inválida"`); in both cases the registry is unchanged, so
no entry is created.  The `/events` variant (`authenticateSocket`) rejects
only a missing identity (registry unchanged) and checks no credential. -/
theorem c2_handshake_rejections (envKey : Option String) (sid : String)
    (q : HandshakeQuery) (reg : Registry) :
    (truthyStr q.userId = false →
      part000Auth envKey sid q reg =
        ⟨reg, .rejected "Se requiere userId", none⟩ ∧
      authenticateSocket sid q reg =
        ⟨reg, .rejected "Se requiere userId", none⟩) ∧
    (truthyStr q.userId = true → q.socketKey ≠ envKey →
      part000Auth envKey sid q reg =
        ⟨reg, .rejected "Clave de socket inválida", none⟩) := by
  constructor
  · intro h
    exact ⟨by simp [part000Auth, h], by simp [authenticateSocket, h]⟩
  · intro h hk
    simp [part000Auth, h, hk]

/-- Witness for C2: concrete rejected handshakes (missing identity in both
variants with the registry left empty; wrong credential in the `/emit`
variant). -/
theorem c2_handshake_rejections_witness :
    part000Auth (some "secret") "s1" ⟨none, some "secret"⟩ [] =
      ⟨[], .rejected "Se requiere userId", none⟩ ∧
    authenticateSocket "s1" ⟨none, some "secret"⟩ [] =
      ⟨[], .rejected "Se requiere userId", none⟩ ∧
    part000Auth (some "secret") "s2" ⟨some "u1", some "wrong"⟩ [] =
      ⟨[], .rejected "Clave de socket inválida", none⟩ := by
  have h1 := (c2_handshake_rejections (some "secret") "s1"
    ⟨none, some "secret"⟩ []).1 (by decide)
  have h2 := (c2_handshake_rejections (some "secret") "s2"
    ⟨some "u1", some "wrong"⟩ []).2 (by decide) (by decide)
  exact ⟨h1.1, h1.2, h2⟩

/-- Counterexample for C2 as stated: in the `/events` variant a handshake
presenting the credential `"wrong"`, different from the configured secret
`"secret"`, is nevertheless admitted, and a registry entry is created — the
middleware never reads the credential. -/
theorem c2_counterexample_credential_ignored :
    ("wrong" : String) ≠ "secret" ∧
    authenticateSocket "s1" ⟨some "u1", some "wrong"⟩ [] =
      ⟨[("u1", "s1")], .admitted, some "u1"⟩ := by
  exact ⟨by decide, by decide⟩

/-- C3 (amended): a relay request with the correct credential whose target
has no registry entry is answered, with the registry unchanged, but the two
variants differ: the `/emit` variant rejects it with a `404`
error response (`success = false`, `"Usuario no conectado"`) and sends no
event, while the `/events` variant answers success-shaped
(`200`, `success = true`, `delivered = false`, `recipientCount = 0`) and
still issues the emit to the target's channel. -/
theorem c3_offline_target (k uid et sentAt : String) (reg : Registry)
    (p : JsonVal) (hk2 : Option String)
    (hu : uid ≠ "") (he : et ≠ "") (hp : p.truthy = true)
    (habs : mapHas reg uid = false) :
    emitHandler (some k) reg ⟨some k, some uid, some et, some p⟩ =
      (reg, ⟨404, false, some "Usuario no conectado", none, none⟩, []) ∧
    eventsHandler reg sentAt ⟨hk2, some uid, some et, some p⟩ =
      (reg, ⟨200, true, none, some false, some 0⟩,
        [⟨uid, et, eventsOutPayload (some p) sentAt false⟩]) := by
  constructor
  · simp [emitHandler, truthyStr_pos hu, truthyStr_pos he, truthyOpt, hp, habs]
  · simp [eventsHandler, truthyStr_pos hu, truthyStr_pos he, habs]

/-- Witness for C3: target `"u1"` has no entry in the empty registry. -/
theorem c3_offline_target_witness :
    emitHandler (some "secret") []
        ⟨some "secret", some "u1", some "ping", some (.obj [])⟩ =
      ([], ⟨404, false, some "Usuario no conectado", none, none⟩, []) ∧
    eventsHandler [] "t0" ⟨some "secret", some "u1", some "ping", some (.obj [])⟩ =
      ([], ⟨200, true, none, some false, some 0⟩,
        [⟨"u1", "ping", eventsOutPayload (some (.obj [])) "t0" false⟩]) :=
  c3_offline_target "secret" "u1" "ping" "t0" [] (.obj []) (some "secret")
    (by decide) (by decide) (by decide) (by decide)

/-- Counterexample for C3 as stated: in the `/emit` variant a correct-key
relay request for the offline user `"u1"` is answered with HTTP `404` and
`success = false` — an error-shaped response, not a success-shaped
"not delivered" indication. -/
theorem c3_counterexample_offline_is_error :
    (emitHandler (some "secret") []
        ⟨some "secret", some "u1", some "ping", some (.obj [])⟩).2.1.status = 404 ∧
    (emitHandler (some "secret") []
        ⟨some "secret", some "u1", some "ping", some (.obj [])⟩).2.1.success = false := by
  exact ⟨by decide, by decide⟩

/-- C4: admission performs an unconditional upsert.  Starting from a
registry that already holds a mapping for `u` and keeps at most one entry
per key (the `Map` invariant), admitting `u` on socket `sid1` and then on
socket `sid2` leaves `mapGet = some sid2` — the newer connection — and
exactly one entry for `u`, never both. -/
theorem c4_last_write_wins (k sid1 sid2 u : String) (reg : Registry)
    (hu : u ≠ "") (_hprior : mapHas reg u = true) (hone : countKey reg u ≤ 1) :
    (part000Auth (some k) sid1 ⟨some u, some k⟩ reg).outcome = .admitted ∧
    (part000Auth (some k) sid2 ⟨some u, some k⟩
        (part000Auth (some k) sid1 ⟨some u, some k⟩ reg).registry).outcome
      = .admitted ∧
    mapGet (part000Auth (some k) sid2 ⟨some u, some k⟩
        (part000Auth (some k) sid1 ⟨some u, some k⟩ reg).registry).registry u
      = some sid2 ∧
    countKey (part000Auth (some k) sid2 ⟨some u, some k⟩
        (part000Auth (some k) sid1 ⟨some u, some k⟩ reg).registry).registry u
      = 1 := by
  have hreg : (part000Auth (some k) sid1 ⟨some u, some k⟩ reg).registry
      = mapSet reg u sid1 := by
    simp [part000Auth, truthyStr_pos hu]
  have hone1 : countKey (mapSet reg u sid1) u ≤ 1 :=
    Nat.le_of_eq (countKey_mapSet u sid1 hone)
  refine ⟨by simp [part000Auth, truthyStr_pos hu], ?_, ?_, ?_⟩
  · simp [part000Auth, truthyStr_pos hu]
  · rw [hreg]
    have : (part000Auth (some k) sid2 ⟨some u, some k⟩ (mapSet reg u sid1)).registry
        = mapSet (mapSet reg u sid1) u sid2 := by
      simp [part000Auth, truthyStr_pos hu]
    rw [this, mapGet_mapSet_self]
  · rw [hreg]
    have : (part000Auth (some k) sid2 ⟨some u, some k⟩ (mapSet reg u sid1)).registry
        = mapSet (mapSet reg u sid1) u sid2 := by
      simp [part000Auth, truthyStr_pos hu]
    rw [this]
    exact countKey_mapSet u sid2 hone1

/-- Witness for C4: user `"u1"`, previously mapped to socket `"s0"`, is
admitted on `"s1"` and then on `"s2"`; afterwards the registry returns
`"s2"` and holds exactly one entry for `"u1"`. -/
theorem c4_last_write_wins_witness :
    (part000Auth (some "k") "s1" ⟨some "u1", some "k"⟩ [("u1", "s0")]).outcome
      = .admitted ∧
    (part000Auth (some "k") "s2" ⟨some "u1", some "k"⟩
        (part000Auth (some "k") "s1" ⟨some "u1", some "k"⟩ [("u1", "s0")]).registry).outcome
      = .admitted ∧
    mapGet (part000Auth (some "k") "s2" ⟨some "u1", some "k"⟩
        (part000Auth (some "k") "s1" ⟨some "u1", some "k"⟩ [("u1", "s0")]).registry).registry "u1"
      = some "s2" ∧
    countKey (part000Auth (some "k") "s2" ⟨some "u1", some "k"⟩
        (part000Auth (some "k") "s1" ⟨some "u1", some "k"⟩ [("u1", "s0")]).registry).registry "u1"
      = 1 :=
  c4_last_write_wins "k" "s1" "s2" "u1" [("u1", "s0")]
    (by decide) (by decide) (by decide)

/-- C5 (amended): the two `check-online` handlers differ.  The `/emit`
variant never mutates the registry and never throws: an absent input, a
falsy or non-object input, a missing `targetUserId` and a falsy
`targetUserId` each yield the `{success := false, error}` reply carrying no
`isOnline` field at all (rather than `isOnline := false`); a truthy
object-typed input with a non-empty string `targetUserId` is answered
`{success := true, isOnline := Registry.has(target)}`, and with a truthy
non-string `targetUserId` it is answered `{success := true,
isOnline := false}` (a non-string value is never a key of the string-keyed
map).  The `/events` variant throws a `TypeError` exactly on a missing or
`null` input; on every other input it answers `{isOnline}` with no error
indicator and the registry unchanged — `Registry.has(target)` for a
string-valued `targetUserId`, `false` for a missing or non-string one. -/
theorem c5_check_online (reg : Registry) (data : Option JsonVal) :
    (part000CheckOnline reg data).1 = reg ∧
    ((part000CheckOnline reg data).2.success = false →
      (part000CheckOnline reg data).2.isOnline = none ∧
      (part000CheckOnline reg data).2.error ≠ none) ∧
    (part000CheckOnline reg none =
      (reg, ⟨false, none, some "Datos de solicitud inválidos"⟩)) ∧
    (∀ v, data = some v → (v.truthy && isObjectTy v) = false →
      part000CheckOnline reg data =
        (reg, ⟨false, none, some "Datos de solicitud inválidos"⟩)) ∧
    (∀ v, data = some v → (v.truthy && isObjectTy v) = true →
      getField v "targetUserId" = none →
      part000CheckOnline reg data =
        (reg, ⟨false, none, some "Se requiere targetUserId"⟩)) ∧
    (∀ v t, data = some v → (v.truthy && isObjectTy v) = true →
      getField v "targetUserId" = some t → t.truthy = false →
      part000CheckOnline reg data =
        (reg, ⟨false, none, some "Se requiere targetUserId"⟩)) ∧
    (∀ v t, data = some v → (v.truthy && isObjectTy v) = true →
      getField v "targetUserId" = some (.str t) → t ≠ "" →
      part000CheckOnline reg data =
        (reg, ⟨true, some (mapHas reg t), none⟩)) ∧
    (∀ v t, data = some v → (v.truthy && isObjectTy v) = true →
      getField v "targetUserId" = some t → t.truthy = true →
      (∀ s, t ≠ .str s) →
      part000CheckOnline reg data = (reg, ⟨true, some false, none⟩)) ∧
    (data = none ∨ data = some .null →
      indexCheckOnline reg data = .error "TypeError: cannot destructure") ∧
    (∀ v, data = some v → v ≠ .null →
      ∃ b, indexCheckOnline reg data = .ok (reg, ⟨b⟩)) ∧
    (∀ v, data = some v → v ≠ .null → getField v "targetUserId" = none →
      indexCheckOnline reg data = .ok (reg, ⟨false⟩)) ∧
    (∀ v t, data = some v → v ≠ .null → getField v "targetUserId" = some t →
      (∀ s, t ≠ .str s) →
      indexCheckOnline reg data = .ok (reg, ⟨false⟩)) ∧
    (∀ v t, data = some v → getField v "targetUserId" = some (.str t) →
      indexCheckOnline reg data = .ok (reg, ⟨mapHas reg t⟩)) := by
  refine ⟨?_, ?_, ?_, ?_, ?_, ?_, ?_, ?_, ?_, ?_, ?_, ?_, ?_⟩
  · cases data with
    | none => rfl
    | some v =>
      simp only [part000CheckOnline]
      repeat' split
      all_goals rfl
  · cases data with
    | none =>
      intro _
      exact ⟨rfl, by simp [part000CheckOnline]⟩
    | some v =>
      simp only [part000CheckOnline]
      repeat' split
      all_goals intro h
      all_goals simp_all
  · rfl
  · intro v hd hmal
    subst hd
    simp [part000CheckOnline, hmal]
  · intro v hd hok hget
    subst hd
    simp [part000CheckOnline, hok, hget]
  · intro v t hd hok hget ht
    subst hd
    simp [part000CheckOnline, hok, hget, ht]
  · intro v t hd hok hget hne
    subst hd
    have hst : (JsonVal.str t).truthy = true := by
      simp [JsonVal.truthy, isEmpty_eq_false_of_ne hne]
    simp [part000CheckOnline, hok, hget, hst]
  · intro v t hd hok hget htr hns
    subst hd
    cases t with
    | str s => exact absurd rfl (hns s)
    | null => simp [JsonVal.truthy] at htr
    | bool b => simp [part000CheckOnline, hok, hget, htr]
    | num n => simp [part000CheckOnline, hok, hget, htr]
    | obj fs => simp [part000CheckOnline, hok, hget, htr]
    | arr xs => simp [part000CheckOnline, hok, hget, htr]
  · intro h
    rcases h with h | h <;> subst h <;> rfl
  · intro v hd hne
    subst hd
    cases v with
    | null => exact absurd rfl hne
    | bool b => exact ⟨_, rfl⟩
    | num n => exact ⟨_, rfl⟩
    | str s => exact ⟨_, rfl⟩
    | obj fs => exact ⟨_, rfl⟩
    | arr xs => exact ⟨_, rfl⟩
  · intro v hd hne hget
    subst hd
    cases v with
    | null => exact absurd rfl hne
    | obj fs => simp [indexCheckOnline, hget]
    | bool b => rfl
    | num n => rfl
    | str s => rfl
    | arr xs => rfl
  · intro v t hd hne hget hns
    subst hd
    cases v with
    | null => exact absurd rfl hne
    | obj fs =>
      simp only [indexCheckOnline, hget]
      cases t with
      | str s => exact absurd rfl (hns s)
      | null => rfl
      | bool b => rfl
      | num n => rfl
      | obj fs2 => rfl
      | arr xs => rfl
    | bool b => simp [getField] at hget
    | num n => simp [getField] at hget
    | str s => simp [getField] at hget
    | arr xs => simp [getField] at hget
  · intro v t hd hget
    subst hd
    cases v with
    | obj fs => simp [indexCheckOnline, hget]
    | null => simp [getField] at hget
    | bool b => simp [getField] at hget
    | num n => simp [getField] at hget
    | str s => simp [getField] at hget
    | arr xs => simp [getField] at hget

/-- Witness for C5: a concrete registry holding `"u2"`, exercising for each
variant a well-formed query, an absent input, a non-object input, a missing
target, a falsy target and a non-string target. -/
theorem c5_check_online_witness :
    part000CheckOnline [("u2", "s2")] (some (.obj [("targetUserId", .str "u2")])) =
      ([("u2", "s2")], ⟨true, some (mapHas [("u2", "s2")] "u2"), none⟩) ∧
    part000CheckOnline [("u2", "s2")] none =
      ([("u2", "s2")], ⟨false, none, some "Datos de solicitud inválidos"⟩) ∧
    part000CheckOnline [("u2", "s2")] (some (.str "x")) =
      ([("u2", "s2")], ⟨false, none, some "Datos de solicitud inválidos"⟩) ∧
    part000CheckOnline [("u2", "s2")] (some (.obj [])) =
      ([("u2", "s2")], ⟨false, none, some "Se requiere targetUserId"⟩) ∧
    part000CheckOnline [("u2", "s2")] (some (.obj [("targetUserId", .str "")])) =
      ([("u2", "s2")], ⟨false, none, some "Se requiere targetUserId"⟩) ∧
    part000CheckOnline [("u2", "s2")] (some (.obj [("targetUserId", .num 5)])) =
      ([("u2", "s2")], ⟨true, some false, none⟩) ∧
    (part000CheckOnline [("u2", "s2")] (some (.bool false))).2.isOnline = none ∧
    (part000CheckOnline [("u2", "s2")] (some (.bool false))).2.error ≠ none ∧
    indexCheckOnline [("u2", "s2")] none = .error "TypeError: cannot destructure" ∧
    indexCheckOnline [("u2", "s2")] (some .null) = .error "TypeError: cannot destructure" ∧
    (∃ b, indexCheckOnline [("u2", "s2")] (some (.str "zz")) =
      .ok ([("u2", "s2")], ⟨b⟩)) ∧
    indexCheckOnline [("u2", "s2")] (some (.num 7)) = .ok ([("u2", "s2")], ⟨false⟩) ∧
    indexCheckOnline [("u2", "s2")] (some (.obj [("targetUserId", .num 5)])) =
      .ok ([("u2", "s2")], ⟨false⟩) ∧
    indexCheckOnline [("u2", "s2")] (some (.obj [("targetUserId", .str "u2")])) =
      .ok ([("u2", "s2")], ⟨mapHas [("u2", "s2")] "u2"⟩) := by
  refine ⟨?_, ?_, ?_, ?_, ?_, ?_, ?_, ?_, ?_, ?_, ?_, ?_, ?_, ?_⟩
  · exact (c5_check_online [("u2", "s2")]
      (some (.obj [("targetUserId", .str "u2")]))).2.2.2.2.2.2.1
      (.obj [("targetUserId", .str "u2")]) "u2" rfl (by decide) rfl (by decide)
  · exact (c5_check_online [("u2", "s2")] none).2.2.1
  · exact (c5_check_online [("u2", "s2")] (some (.str "x"))).2.2.2.1
      (.str "x") rfl (by decide)
  · exact (c5_check_online [("u2", "s2")] (some (.obj []))).2.2.2.2.1
      (.obj []) rfl (by decide) rfl
  · exact (c5_check_online [("u2", "s2")]
      (some (.obj [("targetUserId", .str "")]))).2.2.2.2.2.1
      (.obj [("targetUserId", .str "")]) (.str "") rfl (by decide) rfl (by decide)
  · exact (c5_check_online [("u2", "s2")]
      (some (.obj [("targetUserId", .num 5)]))).2.2.2.2.2.2.2.1
      (.obj [("targetUserId", .num 5)]) (.num 5) rfl (by decide) rfl (by decide)
      (by intro s h; exact JsonVal.noConfusion h)
  · exact ((c5_check_online [("u2", "s2")] (some (.bool false))).2.1 (by decide)).1
  · exact ((c5_check_online [("u2", "s2")] (some (.bool false))).2.1 (by decide)).2
  · exact (c5_check_online [("u2", "s2")] none).2.2.2.2.2.2.2.2.1 (Or.inl rfl)
  · exact (c5_check_online [("u2", "s2")] (some .null)).2.2.2.2.2.2.2.2.1 (Or.inr rfl)
  · exact (c5_check_online [("u2", "s2")] (some (.str "zz"))).2.2.2.2.2.2.2.2.2.1
      (.str "zz") rfl (by intro h; exact JsonVal.noConfusion h)
  · exact (c5_check_online [("u2", "s2")] (some (.num 7))).2.2.2.2.2.2.2.2.2.2.1
      (.num 7) rfl (by intro h; exact JsonVal.noConfusion h) rfl
  · exact (c5_check_online [("u2", "s2")]
      (some (.obj [("targetUserId", .num 5)]))).2.2.2.2.2.2.2.2.2.2.2.1
      (.obj [("targetUserId", .num 5)]) (.num 5) rfl
      (by intro h; exact JsonVal.noConfusion h) rfl
      (by intro s h; exact JsonVal.noConfusion h)
  · exact (c5_check_online [("u2", "s2")]
      (some (.obj [("targetUserId", .str "u2")]))).2.2.2.2.2.2.2.2.2.2.2.2
      (.obj [("targetUserId", .str "u2")]) "u2" rfl rfl

/-- Counterexample for C5 as stated: the `/events`-variant handler throws
(`TypeError`, modelled as `.error`) on a `null` input instead of answering,
and the `/emit`-variant failure reply for an absent input carries no
`isOnline` field at all instead of `isOnline := false`. -/
theorem c5_counterexample_check_online_throws :
    indexCheckOnline [] (some .null) = .error "TypeError: cannot destructure" ∧
    (part000CheckOnline [] none).2 =
      { success := false, isOnline := none,
        error := some "Datos de solicitud inválidos" } := by
  exact ⟨rfl, by decide⟩

/-- C6 (amended): a correct-credential relay request whose target is in the
registry makes the target's room receive exactly one event with the given
event name; the `/emit` variant forwards the payload unmodified, while the
`/events` variant delivers the payload with a `metadata` field
(`sentAt`, `received`) merged in. -/
theorem c6_online_delivery (k uid et sid sentAt : String) (reg : Registry)
    (p : JsonVal) (hk2 : Option String)
    (hu : uid ≠ "") (he : et ≠ "") (hp : p.truthy = true)
    (hget : mapGet reg uid = some sid) (hsid : sid ≠ "") :
    emitHandler (some k) reg ⟨some k, some uid, some et, some p⟩ =
      (reg, ⟨200, true, none, none, none⟩, [⟨uid, et, p⟩]) ∧
    eventsHandler reg sentAt ⟨hk2, some uid, some et, some p⟩ =
      (reg, ⟨200, true, none, some true, some 1⟩,
        [⟨uid, et, eventsOutPayload (some p) sentAt true⟩]) := by
  have hhas := mapHas_of_mapGet hget
  constructor
  · simp [emitHandler, truthyStr_pos hu, truthyStr_pos he, truthyOpt, hp,
      hhas, hget, truthyStr_pos hsid]
  · simp [eventsHandler, truthyStr_pos hu, truthyStr_pos he, hhas]

/-- Witness for C6: the spec's concrete scenario — user `"u1"` admitted on
socket `"s1"`, relayed event `"ping"` with payload `{n: 1}`. -/
theorem c6_online_delivery_witness :
    emitHandler (some "secret") [("u1", "s1")]
        ⟨some "secret", some "u1", some "ping", some (.obj [("n", .num 1)])⟩ =
      ([("u1", "s1")], ⟨200, true, none, none, none⟩,
        [⟨"u1", "ping", .obj [("n", .num 1)]⟩]) ∧
    eventsHandler [("u1", "s1")] "t0"
        ⟨some "secret", some "u1", some "ping", some (.obj [("n", .num 1)])⟩ =
      ([("u1", "s1")], ⟨200, true, none, some true, some 1⟩,
        [⟨"u1", "ping", eventsOutPayload (some (.obj [("n", .num 1)])) "t0" true⟩]) :=
  c6_online_delivery "secret" "u1" "ping" "s1" "t0" [("u1", "s1")]
    (.obj [("n", .num 1)]) (some "secret")
    (by decide) (by decide) (by decide) (by decide) (by decide)

/-- Counterexample for C6 as stated: the `/events` variant does not deliver
the payload unmodified — relaying the empty-object payload `{}` to the
online user `"u1"` emits
`{metadata: {sentAt: "t0", received: true}}`, which differs from `{}`. -/
theorem c6_counterexample_payload_modified :
    (eventsHandler [("u1", "s1")] "t0"
        ⟨some "secret", some "u1", some "ping", some (.obj [])⟩).2.2 =
      [⟨"u1", "ping",
        .obj [("metadata", .obj [("sentAt", .str "t0"), ("received", .bool true)])]⟩] ∧
    JsonVal.obj [("metadata", .obj [("sentAt", .str "t0"), ("received", .bool true)])]
      ≠ .obj [] := by
  refine ⟨rfl, by simp⟩

/-- C7 (amended): in the `/emit` variant a credential different from the
shared secret is rejected with `403` (`Unauthorized`) and, with a correct
credential, a missing `userId`, `eventType` or `payload` is rejected with
`400` (`BadRequest`); in either rejection no event is sent and the registry
is unchanged.  The `/events` variant performs no credential check at all and
rejects (with `400`, no event, registry unchanged) only a missing `userId`
or `eventType` — a missing `payload` is not rejected. -/
theorem c7_relay_validation (k sentAt : String) (reg : Registry)
    (req : EmitRequest) (reqE : EventsRequest) :
    (req.internalKey ≠ some k →
      emitHandler (some k) reg req =
        (reg, ⟨403, false, some "Acceso no autorizado", none, none⟩, [])) ∧
    (req.internalKey = some k →
      (truthyStr req.userId && truthyStr req.eventType && truthyOpt req.payload) = false →
      emitHandler (some k) reg req =
        (reg, ⟨400, false,
          some "Datos incompletos. Se requieren: userId, eventType y payload",
          none, none⟩, [])) ∧
    ((truthyStr reqE.userId && truthyStr reqE.eventType) = false →
      eventsHandler reg sentAt reqE =
        (reg, ⟨400, false, some "Se requieren userId y eventType", none, none⟩, [])) := by
  refine ⟨?_, ?_, ?_⟩
  · intro h
    simp [emitHandler, h]
  · intro hk hv
    simp [emitHandler, hk, hv]
  · intro hv
    simp [eventsHandler, hv]

/-- Witness for C7: a wrong-key `/emit` request, a correct-key `/emit`
request with no payload, and a `/events` request with no `userId`. -/
theorem c7_relay_validation_witness :
    emitHandler (some "secret") [("u1", "s1")]
        ⟨some "wrong", some "u1", some "ping", some (.obj [])⟩ =
      ([("u1", "s1")], ⟨403, false, some "Acceso no autorizado", none, none⟩, []) ∧
    emitHandler (some "secret") [("u1", "s1")]
        ⟨some "secret", some "u1", some "ping", none⟩ =
      ([("u1", "s1")], ⟨400, false,
        some "Datos incompletos. Se requieren: userId, eventType y payload",
        none, none⟩, []) ∧
    eventsHandler [("u1", "s1")] "t0" ⟨some "secret", none, some "ping", some (.obj [])⟩ =
      ([("u1", "s1")], ⟨400, false, some "Se requieren userId y eventType", none, none⟩, []) := by
  refine ⟨?_, ?_, ?_⟩
  · exact (c7_relay_validation "secret" "t0" [("u1", "s1")]
      ⟨some "wrong", some "u1", some "ping", some (.obj [])⟩
      ⟨some "secret", none, some "ping", some (.obj [])⟩).1 (by decide)
  · exact (c7_relay_validation "secret" "t0" [("u1", "s1")]
      ⟨some "secret", some "u1", some "ping", none⟩
      ⟨some "secret", none, some "ping", some (.obj [])⟩).2.1 rfl (by decide)
  · exact (c7_relay_validation "secret" "t0" [("u1", "s1")]
      ⟨some "secret", some "u1", some "ping", some (.obj [])⟩
      ⟨some "secret", none, some "ping", some (.obj [])⟩).2.2 (by decide)

/-- Counterexample for C7 as stated: the `/events` endpoint accepts a relay
request whose credential `"wrong"` differs from the shared secret
`"secret"` and whose `payload` is missing — it answers `200`,
`success = true` and still emits an event, instead of rejecting. -/
theorem c7_counterexample_events_no_checks :
    ("wrong" : String) ≠ "secret" ∧
    eventsHandler [("u1", "s1")] "t0" ⟨some "wrong", some "u1", some "ping", none⟩ =
      ([("u1", "s1")], ⟨200, true, none, some true, some 1⟩,
        [⟨"u1", "ping", eventsOutPayload none "t0" true⟩]) ∧
    [(⟨"u1", "ping", eventsOutPayload none "t0" true⟩ : EmitAction)] ≠ [] := by
  refine ⟨by decide, rfl, by simp⟩

/-- C8: neither relay handler ever writes to the registry — on every path
(unauthorized, malformed, offline target, successful delivery) the registry
after the request equals the registry before it. -/
theorem c8_relay_preserves_registry (envKey : Option String) (reg : Registry)
    (req : EmitRequest) (sentAt : String) (reqE : EventsRequest) :
    (emitHandler envKey reg req).1 = reg ∧
    (eventsHandler reg sentAt reqE).1 = reg := by
  constructor
  · simp only [emitHandler]
    repeat' split
    all_goals rfl
  · simp only [eventsHandler]
    repeat' split
    all_goals rfl

/-- C9: the `/events` handler emits unconditionally for every well-formed
request — even when the target has no registry entry the response reports
`delivered = false` yet the emit to the target's room is still issued, so a
socket still joined to that room receives the event although the registry
reports the user absent. -/
theorem c9_events_emit_unconditional (reg : Registry) (rooms : Rooms)
    (sentAt uid et sid : String) (hk2 : Option String) (p : Option JsonVal)
    (hu : uid ≠ "") (he : et ≠ "")
    (habs : mapHas reg uid = false) (hmem : (uid, sid) ∈ rooms) :
    eventsHandler reg sentAt ⟨hk2, some uid, some et, p⟩ =
      (reg, ⟨200, true, none, some false, some 0⟩,
        [⟨uid, et, eventsOutPayload p sentAt false⟩]) ∧
    sid ∈ deliverTo rooms ⟨uid, et, eventsOutPayload p sentAt false⟩ := by
  constructor
  · simp [eventsHandler, truthyStr_pos hu, truthyStr_pos he, habs]
  · refine List.mem_map.mpr ⟨(uid, sid), ?_, rfl⟩
    exact List.mem_filter.mpr ⟨hmem, by simp⟩

/-- Witness for C9, the superseded-but-still-open scenario: `"u1"` is
admitted on socket `"s1"`, then on socket `"s2"`; `"s2"` disconnects, which
deletes the registry entry and removes `"s2"` from the room, while the
superseded socket `"s1"` is still joined.  A `/events` relay to `"u1"` then
reports `delivered = false` yet `"s1"` receives the event. -/
theorem c9_events_emit_unconditional_witness :
    eventsHandler
        (disconnectHandler "u1"
          (part000Auth (some "k") "s2" ⟨some "u1", some "k"⟩
            (part000Auth (some "k") "s1" ⟨some "u1", some "k"⟩ []).registry).registry)
        "t0" ⟨some "k", some "u1", some "ping", some (.obj [])⟩ =
      (disconnectHandler "u1"
          (part000Auth (some "k") "s2" ⟨some "u1", some "k"⟩
            (part000Auth (some "k") "s1" ⟨some "u1", some "k"⟩ []).registry).registry,
        ⟨200, true, none, some false, some 0⟩,
        [⟨"u1", "ping", eventsOutPayload (some (.obj [])) "t0" false⟩]) ∧
    "s1" ∈ deliverTo (leaveAllRooms (joinRoom (joinRoom [] "u1" "s1") "u1" "s2") "s2")
      ⟨"u1", "ping", eventsOutPayload (some (.obj [])) "t0" false⟩ :=
  c9_events_emit_unconditional
    (disconnectHandler "u1"
      (part000Auth (some "k") "s2" ⟨some "u1", some "k"⟩
        (part000Auth (some "k") "s1" ⟨some "u1", some "k"⟩ []).registry).registry)
    (leaveAllRooms (joinRoom (joinRoom [] "u1" "s1") "u1" "s2") "s2")
    "t0" "u1" "ping" "s1" (some "k") (some (.obj []))
    (by decide) (by decide) (by decide) (by decide)

/-- C10: an empty-string user identifier is falsy in JavaScript, so every
handshake middleware rejects it exactly like a missing identity (registry
unchanged, so it can never be admitted into the registry) and both relay
endpoints reject a request targeting it with `400` `BadRequest` — never
reaching the presence check, hence never answering "offline"/404. -/
theorem c10_empty_user_treated_missing (envKey : Option String)
    (sid key sentAt : String) (k2 hk2 : Option String) (reg : Registry)
    (et : Option String) (p : Option JsonVal) :
    part000Auth envKey sid ⟨some "", k2⟩ reg =
      ⟨reg, .rejected "Se requiere userId", none⟩ ∧
    authenticateSocket sid ⟨some "", k2⟩ reg =
      ⟨reg, .rejected "Se requiere userId", none⟩ ∧
    emitHandler (some key) reg ⟨some key, some "", et, p⟩ =
      (reg, ⟨400, false,
        some "Datos incompletos. Se requieren: userId, eventType y payload",
        none, none⟩, []) ∧
    eventsHandler reg sentAt ⟨hk2, some "", et, p⟩ =
      (reg, ⟨400, false, some "Se requieren userId y eventType", none, none⟩, []) := by
  have h : truthyStr (some "") = false := rfl
  refine ⟨?_, ?_, ?_, ?_⟩
  · simp [part000Auth, h]
  · simp [authenticateSocket, h]
  · simp [emitHandler, h]
  · simp [eventsHandler, h]
